import Mathlib

set_option maxRecDepth 100000

/-!
Shallow embedding of the trackscreen event-translation engine
(the sidekey/batched variant: context `trackscreen_context`, functions
`queue_tp_event`, `flush_tp_events`, `emit_sidekey_event`, `check_bounds`,
`emit_multitap`, `handle_event`, `compute_trackpad_bounds`,
`read_trackpad_dimensions`).  Machine integers are modelled as `Int`
(values) and `Nat` (the unsigned slot cursor, with explicit mod 2^32
conversion where the C code converts an `int` event value to
`unsigned int`).  Device writes are modelled as lists of write calls,
each write call being the list of event records passed to it.
-/

/-- One kernel input event record: `type`/`code` are 16-bit unsigned
fields, `value` a signed 32-bit field. -/
structure IEvent where
  type : Nat
  code : Nat
  value : Int
deriving DecidableEq, Repr

def EV_SYN : Nat := 0
def EV_KEY : Nat := 1
def EV_ABS : Nat := 3
def SYN_REPORT : Nat := 0
def ABS_X : Nat := 0
def ABS_Y : Nat := 1
def ABS_MT_SLOT : Nat := 47
def ABS_MT_POSITION_X : Nat := 53
def ABS_MT_POSITION_Y : Nat := 54
def ABS_MT_TRACKING_ID : Nat := 57
def ABS_MT_PRESSURE : Nat := 58
def BTN_TOOL_FINGER : Nat := 325
def BTN_TOOL_QUINTTAP : Nat := 328
def BTN_TOOL_DOUBLETAP : Nat := 333
def BTN_TOOL_TRIPLETAP : Nat := 334
def BTN_TOOL_QUADTAP : Nat := 335

def MAX_FINGERS : Nat := 10
def MAX_EVENTS_PER_REPORT : Nat := 24

/-- The mutable state of the translator (fields of the C struct that the
modelled functions read or write; file descriptors are kept as plain
integers since only their sign is ever inspected). -/
structure trackscreen_context where
  tp : Int
  kbd : Int
  keycode : Int
  tp_min_x : Int
  tp_min_y : Int
  tp_max_x : Int
  tp_max_y : Int
  finger_count : Int
  fingers : List Int
  slot : Nat
  input_event : List IEvent
  pos_x : Int
  pos_y : Int
  sidekey : Nat
deriving DecidableEq, Repr

/-- Conversion of a signed 32-bit event value to the unsigned slot
cursor, as the C assignment of an `int` to an `unsigned int` does. -/
def uint_of_int32 (v : Int) : Nat := (v % 4294967296).toNat

/-- queue_tp_event: append one translated event to the pending report,
dropping it when the queue already holds `MAX_EVENTS_PER_REPORT` events. -/
def queue_tp_event (ctx : trackscreen_context) (type code : Nat)
    (value : Int) : trackscreen_context :=
  if MAX_EVENTS_PER_REPORT ≤ ctx.input_event.length then ctx
  else { ctx with input_event := ctx.input_event ++ [⟨type, code, value⟩] }

/-- flush_tp_events: write the whole queue as one batch, clear it, then
write the sync report event as a second write. -/
def flush_tp_events (ctx : trackscreen_context) (report : IEvent) :
    trackscreen_context × List (List IEvent) :=
  ({ ctx with input_event := [] }, [ctx.input_event, [report]])

/-- emit_sidekey_event: one write of a key event with the configured
keycode (truncated to the 16-bit code field) followed by a sync event. -/
def emit_sidekey_event (ctx : trackscreen_context) (value : Int) :
    List IEvent :=
  [⟨EV_KEY, (ctx.keycode % 65536).toNat, value⟩, ⟨EV_SYN, SYN_REPORT, 0⟩]

/-- The position-resolution loop at the head of check_bounds: scan the
queued events, starting from the carried-over position, taking the last
X-ish and Y-ish absolute values seen. -/
def find_position (ctx : trackscreen_context) : Int × Int :=
  ctx.input_event.foldl
    (fun p ev =>
      if ev.type = EV_ABS then
        if ev.code = ABS_X ∨ ev.code = ABS_MT_POSITION_X then (ev.value, p.2)
        else if ev.code = ABS_Y ∨ ev.code = ABS_MT_POSITION_Y then (p.1, ev.value)
        else p
      else p)
    (ctx.pos_x, ctx.pos_y)

/-- The side-touch classifier inside check_bounds: y within the vertical
span of the region and x outside the horizontal span. -/
def side_touch (ctx : trackscreen_context) (x y : Int) : Bool :=
  decide ((ctx.tp_min_y ≤ y ∧ y < ctx.tp_max_y) ∧
          (x < ctx.tp_min_x ∨ ctx.tp_max_x ≤ x))

/-- The side-touch classification as the 0/1 integer the C code stores. -/
def side_class (ctx : trackscreen_context) (x y : Int) : Nat :=
  if side_touch ctx x y then 1 else 0

/-- The sidekey transition step of check_bounds: on a change of
classification, record the new state and (when a keyboard device exists)
emit one sidekey key event. -/
def sidekey_update (ctx : trackscreen_context) (x y : Int) :
    trackscreen_context × List (List IEvent) :=
  if side_class ctx x y ≠ ctx.sidekey then
    ({ ctx with sidekey := side_class ctx x y },
     if 0 < ctx.kbd then
       [emit_sidekey_event ctx ((side_class ctx x y : Nat) : Int)]
     else [])
  else (ctx, [])

/-- The clamp of check_bounds: pull a coordinate into the half-open
interval from lo to hi. -/
def clamp_coord (lo hi v : Int) : Int :=
  if v < lo then lo else if hi ≤ v then hi - 1 else v

/-- The replacement loop at the tail of check_bounds: substitute the
clamped, rebased x and y into every queued position event. -/
def replace_positions (x y : Int) (l : List IEvent) : List IEvent :=
  l.map (fun ev =>
    if ev.type = EV_ABS then
      if ev.code = ABS_X ∨ ev.code = ABS_MT_POSITION_X then { ev with value := x }
      else if ev.code = ABS_Y ∨ ev.code = ABS_MT_POSITION_Y then { ev with value := y }
      else ev
    else ev)

/-- check_bounds: resolve the position from the report (falling back to
the carried position), bail out if either coordinate is the -1 sentinel,
run the sidekey transition, store the raw resolved position, and rewrite
the queued position events with the clamped, rebased coordinates. -/
def check_bounds (ctx : trackscreen_context) :
    trackscreen_context × List (List IEvent) :=
  let x := (find_position ctx).1
  let y := (find_position ctx).2
  if x = -1 ∨ y = -1 then (ctx, [])
  else
    let s := sidekey_update ctx x y
    let xc := clamp_coord ctx.tp_min_x ctx.tp_max_x x - ctx.tp_min_x
    let yc := clamp_coord ctx.tp_min_y ctx.tp_max_y y - ctx.tp_min_y
    ({ s.1 with pos_x := x, pos_y := y,
                input_event := replace_positions xc yc s.1.input_event },
     s.2)

/-- The finger-count to tool-code table. -/
def finger_tap_codes : List Nat :=
  [0, BTN_TOOL_FINGER, BTN_TOOL_DOUBLETAP, BTN_TOOL_TRIPLETAP,
   BTN_TOOL_QUADTAP, BTN_TOOL_QUINTTAP]

/-- emit_multitap: queue one tool key event for a finger count in 1..5;
counts outside that range queue nothing. -/
def emit_multitap (ctx : trackscreen_context) (finger_count : Int)
    (value : Int) : trackscreen_context :=
  if finger_count ≤ 0 ∨ 5 < finger_count then ctx
  else queue_tp_event ctx EV_KEY (finger_tap_codes.getD finger_count.toNat 0) value

/-- The finger-count recomputation loop of handle_event: count the slots
whose tracking ID is strictly positive (this is what the C loop tests). -/
def count_fingers (fingers : List Int) : Int :=
  fingers.foldl (fun n v => if 0 < v then n + 1 else n) 0

/-- The two device write streams one call of handle_event produces. -/
structure HEOut where
  tpWrites : List (List IEvent)
  kbdWrites : List (List IEvent)
deriving DecidableEq, Repr

/-- The finger-count-transition block at the head of the sync-report
path of handle_event: recompute the count, and on a change queue the
lift for the old count, queue the press for the new count, and record
the new count. -/
def mt_stage (ctx : trackscreen_context) : trackscreen_context :=
  if count_fingers ctx.fingers ≠ ctx.finger_count then
    { emit_multitap (emit_multitap ctx ctx.finger_count 0)
        (count_fingers ctx.fingers) 1 with
      finger_count := count_fingers ctx.fingers }
  else ctx

/-- The sync-report path of handle_event: tool transitions, bounds and
sidekey check, forced sidekey release when no fingers remain, and the
flush of the pending report. -/
def handle_report (ctx : trackscreen_context) (ev : IEvent) :
    trackscreen_context × HEOut :=
  let r2 := check_bounds (mt_stage ctx)
  let r3 :=
    if count_fingers ctx.fingers = 0 ∧ r2.1.sidekey ≠ 0 then
      ({ r2.1 with sidekey := 0 },
       if 0 < r2.1.keycode then [emit_sidekey_event r2.1 0] else [])
    else (r2.1, ([] : List (List IEvent)))
  let r4 := flush_tp_events r3.1 ev
  (r4.1, ⟨r4.2, r2.2 ++ r3.2⟩)

/-- The switch on absolute event codes in handle_event: a slot-select
event moves the unsigned slot cursor, a tracking-id event writes the
table entry only when the cursor is within bounds, anything else leaves
the tracker state alone. -/
def abs_stage (ctx : trackscreen_context) (ev : IEvent) :
    trackscreen_context :=
  if ev.code = ABS_MT_SLOT then { ctx with slot := uint_of_int32 ev.value }
  else if ev.code = ABS_MT_TRACKING_ID then
    (if ctx.slot < MAX_FINGERS then
       { ctx with fingers := ctx.fingers.set ctx.slot ev.value }
     else ctx)
  else ctx

/-- handle_event: process one raw event.  A sync-report event recomputes
the finger count, emits tool transitions, runs check_bounds, applies the
forced sidekey release, and flushes; any other non-absolute event is
queued through; an absolute event first updates the slot cursor or the
per-slot tracking-ID table (bounds-checked) and is then queued. -/
def handle_event (ctx : trackscreen_context) (ev : IEvent) :
    trackscreen_context × HEOut :=
  if ev.type = EV_SYN ∧ ev.code = SYN_REPORT then handle_report ctx ev
  else if ev.type ≠ EV_ABS then
    (queue_tp_event ctx ev.type ev.code ev.value, ⟨[], []⟩)
  else
    (queue_tp_event (abs_stage ctx ev) ev.type ev.code ev.value, ⟨[], []⟩)

/-- Iterate handle_event over an input event sequence, concatenating the
produced writes. -/
def run (ctx : trackscreen_context) (evs : List IEvent) :
    trackscreen_context × HEOut :=
  evs.foldl
    (fun acc ev =>
      let r := handle_event acc.1 ev
      (r.1, ⟨acc.2.tpWrites ++ r.2.tpWrites, acc.2.kbdWrites ++ r.2.kbdWrites⟩))
    (ctx, ⟨[], []⟩)

/-- Iterate the sidekey transition step over a sequence of resolved
per-report positions, concatenating the keyboard writes. -/
def sidekey_run : trackscreen_context → List (Int × Int) →
    trackscreen_context × List (List IEvent)
  | ctx, [] => (ctx, [])
  | ctx, p :: ps =>
      let r := sidekey_update ctx p.1 p.2
      let rest := sidekey_run r.1 ps
      (rest.1, r.2 ++ rest.2)

/-- compute_trackpad_bounds: derive the trackpad region from the screen
rectangle and the four percentages, with C truncating integer division. -/
def compute_trackpad_bounds (ts_min_x ts_min_y ts_max_x ts_max_y
    l t w h : Int) : Int × Int × Int × Int :=
  let width := ts_max_x - ts_min_x
  let height := ts_max_y - ts_min_y
  let tp_min_x := ts_min_x + Int.tdiv (width * l) 100
  let tp_max_x := tp_min_x + Int.tdiv (width * w) 100
  let tp_min_y := ts_min_y + Int.tdiv (height * t) 100
  let tp_max_y := tp_min_y + Int.tdiv (height * h) 100
  (tp_min_x, tp_max_x, tp_min_y, tp_max_y)

/-- read_trackpad_dimensions, validation part: 0 on success, -1 on a
rejected percentage tuple (the sscanf parse is outside the model). -/
def read_trackpad_dimensions (l t w h : Int) : Int :=
  if l < 0 ∨ 100 ≤ l ∨ t < 0 ∨ 100 ≤ t then -1
  else if w ≤ 0 ∨ 100 < w ∨ 100 < l + w ∨
          h ≤ 0 ∨ 100 < h ∨ 100 < t + h then -1
  else 0

/-- A concrete context as the program would hold it after startup with
the default geometry on a screen spanning 0..1000 on both axes, with a
keyboard configured (keycode 85). -/
def test_ctx : trackscreen_context :=
  { tp := 4, kbd := 5, keycode := 85,
    tp_min_x := 330, tp_min_y := 670, tp_max_x := 660, tp_max_y := 1000,
    finger_count := 0, fingers := List.replicate 10 (-1), slot := 0,
    input_event := [], pos_x := 0, pos_y := 0, sidekey := 0 }

/-- test_ctx with a full pending-report queue of 24 events. -/
def full_queue_ctx : trackscreen_context :=
  { test_ctx with
    input_event := List.replicate 24 (⟨EV_ABS, ABS_MT_PRESSURE, 0⟩ : IEvent) }

/-- test_ctx with one report's position events queued at x 100, y 800
(left of the region, vertically in band). -/
def c9_ctx : trackscreen_context :=
  { test_ctx with
    input_event := [⟨EV_ABS, ABS_MT_POSITION_X, 100⟩,
                    ⟨EV_ABS, ABS_MT_POSITION_Y, 800⟩] }

/-- test_ctx with the sidekey currently active and no fingers down. -/
def c4_ctx : trackscreen_context := { test_ctx with sidekey := 1 }

theorem queue_tp_event_fingers (ctx : trackscreen_context) (t c : Nat)
    (v : Int) : (queue_tp_event ctx t c v).fingers = ctx.fingers := by
  unfold queue_tp_event; split <;> rfl

theorem queue_tp_event_sidekey (ctx : trackscreen_context) (t c : Nat)
    (v : Int) : (queue_tp_event ctx t c v).sidekey = ctx.sidekey := by
  unfold queue_tp_event; split <;> rfl

theorem queue_tp_event_kbd (ctx : trackscreen_context) (t c : Nat)
    (v : Int) : (queue_tp_event ctx t c v).kbd = ctx.kbd := by
  unfold queue_tp_event; split <;> rfl

theorem queue_tp_event_keycode (ctx : trackscreen_context) (t c : Nat)
    (v : Int) : (queue_tp_event ctx t c v).keycode = ctx.keycode := by
  unfold queue_tp_event; split <;> rfl

theorem queue_tp_event_slot (ctx : trackscreen_context) (t c : Nat)
    (v : Int) : (queue_tp_event ctx t c v).slot = ctx.slot := by
  unfold queue_tp_event; split <;> rfl

theorem queue_tp_event_finger_count (ctx : trackscreen_context) (t c : Nat)
    (v : Int) : (queue_tp_event ctx t c v).finger_count = ctx.finger_count := by
  unfold queue_tp_event; split <;> rfl

theorem emit_multitap_fingers (ctx : trackscreen_context) (n v : Int) :
    (emit_multitap ctx n v).fingers = ctx.fingers := by
  unfold emit_multitap; split <;> simp [queue_tp_event_fingers]

theorem emit_multitap_sidekey (ctx : trackscreen_context) (n v : Int) :
    (emit_multitap ctx n v).sidekey = ctx.sidekey := by
  unfold emit_multitap; split <;> simp [queue_tp_event_sidekey]

theorem emit_multitap_kbd (ctx : trackscreen_context) (n v : Int) :
    (emit_multitap ctx n v).kbd = ctx.kbd := by
  unfold emit_multitap; split <;> simp [queue_tp_event_kbd]

theorem emit_multitap_keycode (ctx : trackscreen_context) (n v : Int) :
    (emit_multitap ctx n v).keycode = ctx.keycode := by
  unfold emit_multitap; split <;> simp [queue_tp_event_keycode]

theorem emit_multitap_slot (ctx : trackscreen_context) (n v : Int) :
    (emit_multitap ctx n v).slot = ctx.slot := by
  unfold emit_multitap; split <;> simp [queue_tp_event_slot]

/-- C3: the side-touch classifier of check_bounds declares a side touch
exactly when the y coordinate lies in the vertical band of the region
and the x coordinate falls outside it on either side; with the default
region on a 0..1000 screen, a touch at x 500, y 800 is inside and a
touch at x 100, y 800 is a side touch. -/
theorem C3_side_touch_iff :
    (∀ (ctx : trackscreen_context) (x y : Int),
      side_touch ctx x y = true ↔
      (ctx.tp_min_y ≤ y ∧ y < ctx.tp_max_y ∧
       (x < ctx.tp_min_x ∨ ctx.tp_max_x ≤ x))) ∧
    side_touch test_ctx 500 800 = false ∧
    side_touch test_ctx 100 800 = true := by
  refine ⟨fun ctx x y => ?_, by decide, by decide⟩
  simp [side_touch, and_assoc]

/-- Witness instantiating the universally quantified part of the C3
theorem at a concrete context and position. -/
theorem C3_side_touch_iff_witness :
    side_touch test_ctx 100 800 = true ↔
    (test_ctx.tp_min_y ≤ 800 ∧ (800:Int) < test_ctx.tp_max_y ∧
     ((100:Int) < test_ctx.tp_min_x ∨ test_ctx.tp_max_x ≤ 100)) :=
  C3_side_touch_iff.1 test_ctx 100 800

/-- C5: the pending-report queue drops exactly the newly arriving event
once 24 events are queued, appends in arrival order below capacity, and
flushing writes the queued batch followed by the sync event and empties
the queue; feeding 25 absolute events and a sync report through the
translator flushes the first 24 in original order and drops the 25th. -/
theorem C5_queue_capacity_flush :
    (∀ (ctx : trackscreen_context) (t c : Nat) (v : Int),
      24 ≤ ctx.input_event.length → queue_tp_event ctx t c v = ctx) ∧
    (∀ (ctx : trackscreen_context) (t c : Nat) (v : Int),
      ctx.input_event.length < 24 →
      (queue_tp_event ctx t c v).input_event =
        ctx.input_event ++ [⟨t, c, v⟩]) ∧
    (∀ (ctx : trackscreen_context) (report : IEvent),
      flush_tp_events ctx report =
        ({ ctx with input_event := [] }, [ctx.input_event, [report]])) ∧
    (run test_ctx
        (((List.range 25).map
            (fun i => (⟨EV_ABS, ABS_MT_PRESSURE, (i : Int)⟩ : IEvent))) ++
          [⟨EV_SYN, SYN_REPORT, 0⟩])).2.tpWrites =
      [(List.range 24).map
          (fun i => (⟨EV_ABS, ABS_MT_PRESSURE, (i : Int)⟩ : IEvent)),
       [⟨EV_SYN, SYN_REPORT, 0⟩]] ∧
    (run test_ctx
        (((List.range 25).map
            (fun i => (⟨EV_ABS, ABS_MT_PRESSURE, (i : Int)⟩ : IEvent))) ++
          [⟨EV_SYN, SYN_REPORT, 0⟩])).1.input_event = [] := by
  refine ⟨fun ctx t c v h => ?_, fun ctx t c v h => ?_, fun ctx report => rfl,
    by decide, by decide⟩
  · unfold queue_tp_event
    simp [MAX_EVENTS_PER_REPORT, h]
  · unfold queue_tp_event
    simp [MAX_EVENTS_PER_REPORT, Nat.not_le.mpr h]

/-- Witness instantiating the quantified parts of the C5 theorem: a full
queue of 24 events drops a new event, a short queue appends it, and a
flush from the short queue writes batch then sync. -/
theorem C5_queue_capacity_flush_witness :
    (queue_tp_event full_queue_ctx EV_KEY 330 1 = full_queue_ctx) ∧
    ((queue_tp_event test_ctx EV_KEY 330 1).input_event =
      test_ctx.input_event ++ [⟨EV_KEY, 330, 1⟩]) ∧
    (flush_tp_events test_ctx ⟨EV_SYN, SYN_REPORT, 0⟩ =
      ({ test_ctx with input_event := [] },
       [test_ctx.input_event, [⟨EV_SYN, SYN_REPORT, 0⟩]])) :=
  ⟨C5_queue_capacity_flush.1 full_queue_ctx EV_KEY 330 1 (by decide),
   C5_queue_capacity_flush.2.1 test_ctx EV_KEY 330 1 (by decide),
   C5_queue_capacity_flush.2.2.1 test_ctx ⟨EV_SYN, SYN_REPORT, 0⟩⟩

theorem sidekey_update_fst (ctx : trackscreen_context) (x y : Int) :
    (sidekey_update ctx x y).1 = { ctx with sidekey := side_class ctx x y } := by
  unfold sidekey_update
  split
  · rfl
  · next hne =>
      push_neg at hne
      rw [hne]

/-- C1: the finger count the sync-report path recomputes counts only
slots with a strictly positive tracking ID, so a slot occupied by
tracking ID 0 is not counted: feeding slot-select 0, tracking-id 0 and a
sync report leaves the recorded finger count at 0 although one slot
holds the non-negative tracking ID 0. -/
theorem C1_tracking_id_zero_not_counted :
    (run test_ctx [⟨EV_ABS, ABS_MT_SLOT, 0⟩, ⟨EV_ABS, ABS_MT_TRACKING_ID, 0⟩,
                   ⟨EV_SYN, SYN_REPORT, 0⟩]).1.fingers =
      0 :: List.replicate 9 (-1) ∧
    (run test_ctx [⟨EV_ABS, ABS_MT_SLOT, 0⟩, ⟨EV_ABS, ABS_MT_TRACKING_ID, 0⟩,
                   ⟨EV_SYN, SYN_REPORT, 0⟩]).1.finger_count = 0 ∧
    count_fingers (0 :: List.replicate 9 (-1)) = 0 ∧
    (0 :: List.replicate 9 (-1)).countP (fun v => decide ((0:Int) ≤ v)) = 1 := by
  decide

/-- C7 counterexample: on a degenerate screen spanning 0..1 on both axes
the valid default percentages 33,67,33,33 produce an empty region (all
four bounds collapse to 0), refuting non-emptiness for every screen
rectangle. -/
theorem C7_counterexample :
    ((0:Int) < 1 ∧ (0:Int) < 1 ∧
     0 ≤ (33:Int) ∧ (33:Int) < 100 ∧ 0 ≤ (67:Int) ∧ (67:Int) < 100 ∧
     0 < (33:Int) ∧ (33:Int) ≤ 100 ∧
     (33:Int) + 33 ≤ 100 ∧ (67:Int) + 33 ≤ 100) ∧
    compute_trackpad_bounds 0 0 1 1 33 67 33 33 = (0, 0, 0, 0) ∧
    ¬ ((0:Int) < 0) := by decide

/-- C7 amended: for every screen rectangle and valid percentage tuple
whose scaled width and height do not truncate to zero (screen span times
percent at least 100 on each axis), the computed region is non-empty and
contained in the screen rectangle; the default tuple on a 0..1000 screen
yields the region 330..660 by 670..1000. -/
theorem C7_region_nonempty_contained :
    (∀ ts_min_x ts_min_y ts_max_x ts_max_y l t w h : Int,
      ts_min_x < ts_max_x → ts_min_y < ts_max_y →
      0 ≤ l → l < 100 → 0 ≤ t → t < 100 →
      0 < w → w ≤ 100 → 0 < h → h ≤ 100 →
      l + w ≤ 100 → t + h ≤ 100 →
      100 ≤ (ts_max_x - ts_min_x) * w → 100 ≤ (ts_max_y - ts_min_y) * h →
      (ts_min_x ≤
        (compute_trackpad_bounds ts_min_x ts_min_y ts_max_x ts_max_y l t w h).1 ∧
       (compute_trackpad_bounds ts_min_x ts_min_y ts_max_x ts_max_y l t w h).1 <
        (compute_trackpad_bounds ts_min_x ts_min_y ts_max_x ts_max_y l t w h).2.1 ∧
       (compute_trackpad_bounds ts_min_x ts_min_y ts_max_x ts_max_y l t w h).2.1 ≤
        ts_max_x ∧
       ts_min_y ≤
        (compute_trackpad_bounds ts_min_x ts_min_y ts_max_x ts_max_y l t w h).2.2.1 ∧
       (compute_trackpad_bounds ts_min_x ts_min_y ts_max_x ts_max_y l t w h).2.2.1 <
        (compute_trackpad_bounds ts_min_x ts_min_y ts_max_x ts_max_y l t w h).2.2.2 ∧
       (compute_trackpad_bounds ts_min_x ts_min_y ts_max_x ts_max_y l t w h).2.2.2 ≤
        ts_max_y)) ∧
    compute_trackpad_bounds 0 0 1000 1000 33 67 33 33 = (330, 660, 670, 1000) := by
  refine ⟨?_, by decide⟩
  intro a b c d l t w h hac hbd hl hl2 ht ht2 hw hw2 hh hh2 hlw hth hwx hwy
  have hwpos : (0:Int) ≤ c - a := by omega
  have hhpos : (0:Int) ≤ d - b := by omega
  have e1 : Int.tdiv ((c - a) * l) 100 = ((c - a) * l) / 100 :=
    Int.tdiv_eq_ediv (mul_nonneg hwpos hl) (by norm_num)
  have e2 : Int.tdiv ((c - a) * w) 100 = ((c - a) * w) / 100 :=
    Int.tdiv_eq_ediv (mul_nonneg hwpos (le_of_lt hw)) (by norm_num)
  have e3 : Int.tdiv ((d - b) * t) 100 = ((d - b) * t) / 100 :=
    Int.tdiv_eq_ediv (mul_nonneg hhpos ht) (by norm_num)
  have e4 : Int.tdiv ((d - b) * h) 100 = ((d - b) * h) / 100 :=
    Int.tdiv_eq_ediv (mul_nonneg hhpos (le_of_lt hh)) (by norm_num)
  have hx : (c - a) * l + (c - a) * w ≤ (c - a) * 100 := by
    have := mul_le_mul_of_nonneg_left hlw hwpos
    rw [mul_add] at this
    linarith
  have hy : (d - b) * t + (d - b) * h ≤ (d - b) * 100 := by
    have := mul_le_mul_of_nonneg_left hth hhpos
    rw [mul_add] at this
    linarith
  have hA : (0:Int) ≤ (c - a) * l := mul_nonneg hwpos hl
  have hB : (0:Int) ≤ (d - b) * t := mul_nonneg hhpos ht
  simp only [compute_trackpad_bounds, e1, e2, e3, e4]
  omega

/-- Witness instantiating the universal part of the C7 theorem at the
default geometry on a 0..1000 screen. -/
theorem C7_region_nonempty_contained_witness :
    ((0:Int) < 1000 ∧ (0:Int) < 1000 ∧ 0 ≤ (33:Int) ∧ (33:Int) < 100 ∧
     0 ≤ (67:Int) ∧ (67:Int) < 100 ∧ 0 < (33:Int) ∧ (33:Int) ≤ 100 ∧
     (33:Int) + 33 ≤ 100 ∧ (67:Int) + 33 ≤ 100 ∧
     100 ≤ ((1000:Int) - 0) * 33) ∧
    ((0:Int) ≤ (compute_trackpad_bounds 0 0 1000 1000 33 67 33 33).1 ∧
     (compute_trackpad_bounds 0 0 1000 1000 33 67 33 33).1 <
      (compute_trackpad_bounds 0 0 1000 1000 33 67 33 33).2.1 ∧
     (compute_trackpad_bounds 0 0 1000 1000 33 67 33 33).2.1 ≤ 1000 ∧
     (0:Int) ≤ (compute_trackpad_bounds 0 0 1000 1000 33 67 33 33).2.2.1 ∧
     (compute_trackpad_bounds 0 0 1000 1000 33 67 33 33).2.2.1 <
      (compute_trackpad_bounds 0 0 1000 1000 33 67 33 33).2.2.2 ∧
     (compute_trackpad_bounds 0 0 1000 1000 33 67 33 33).2.2.2 ≤ 1000) :=
  ⟨by decide,
   C7_region_nonempty_contained.1 0 0 1000 1000 33 67 33 33
     (by decide) (by decide) (by decide) (by decide) (by decide) (by decide)
     (by decide) (by decide) (by decide) (by decide) (by decide) (by decide)
     (by decide) (by decide)⟩

/-- C9 counterexample: for a report resolving to x 100, y 800 with the
default region, check_bounds stores the raw pair 100, 800 as the carried
position while the clamped, rebased pair written into the report's
coordinate fields is 0, 130 — the stored position is not the clamped,
rebased pair. -/
theorem C9_counterexample :
    (check_bounds c9_ctx).1.pos_x = 100 ∧
    (check_bounds c9_ctx).1.pos_y = 800 ∧
    clamp_coord 330 660 100 - 330 = 0 ∧
    clamp_coord 670 1000 800 - 670 = 130 ∧
    (check_bounds c9_ctx).1.input_event =
      [⟨EV_ABS, ABS_MT_POSITION_X, 0⟩, ⟨EV_ABS, ABS_MT_POSITION_Y, 130⟩] ∧
    ¬ ((check_bounds c9_ctx).1.pos_x = 0 ∧ (check_bounds c9_ctx).1.pos_y = 130) := by
  decide

/-- C9 amended: after check_bounds runs on a report whose resolved
position is not the -1 sentinel on either axis, the stored position is
the raw resolved pair, and the clamped, rebased pair is what is
substituted into the report's coordinate fields. -/
theorem C9_raw_position_stored (ctx : trackscreen_context)
    (hx : (find_position ctx).1 ≠ -1) (hy : (find_position ctx).2 ≠ -1) :
    (check_bounds ctx).1.pos_x = (find_position ctx).1 ∧
    (check_bounds ctx).1.pos_y = (find_position ctx).2 ∧
    (check_bounds ctx).1.input_event =
      replace_positions
        (clamp_coord ctx.tp_min_x ctx.tp_max_x (find_position ctx).1 - ctx.tp_min_x)
        (clamp_coord ctx.tp_min_y ctx.tp_max_y (find_position ctx).2 - ctx.tp_min_y)
        ctx.input_event := by
  simp only [check_bounds, sidekey_update_fst, hx, hy, false_or, if_false]
  exact ⟨trivial, trivial, trivial⟩

/-- Witness applying the C9 amended theorem to the concrete report
resolving to x 100, y 800. -/
theorem C9_raw_position_stored_witness :
    ((find_position c9_ctx).1 ≠ -1 ∧ (find_position c9_ctx).2 ≠ -1) ∧
    ((check_bounds c9_ctx).1.pos_x = (find_position c9_ctx).1 ∧
     (check_bounds c9_ctx).1.pos_y = (find_position c9_ctx).2 ∧
     (check_bounds c9_ctx).1.input_event =
       replace_positions
         (clamp_coord c9_ctx.tp_min_x c9_ctx.tp_max_x (find_position c9_ctx).1 -
           c9_ctx.tp_min_x)
         (clamp_coord c9_ctx.tp_min_y c9_ctx.tp_max_y (find_position c9_ctx).2 -
           c9_ctx.tp_min_y)
         c9_ctx.input_event) :=
  ⟨⟨by decide, by decide⟩, C9_raw_position_stored c9_ctx (by decide) (by decide)⟩

/-- C6: the geometry percentage validation accepts a tuple exactly when
left and top lie in 0..99, width and height in 1..100, and the offset
sums do not exceed 100; everything else is rejected with -1. -/
theorem C6_dimension_validation (l t w h : Int) :
    read_trackpad_dimensions l t w h = 0 ↔
    (0 ≤ l ∧ l < 100 ∧ 0 ≤ t ∧ t < 100 ∧
     0 < w ∧ w ≤ 100 ∧ 0 < h ∧ h ≤ 100 ∧
     l + w ≤ 100 ∧ t + h ≤ 100) := by
  unfold read_trackpad_dimensions
  split
  · constructor
    · intro hc; exact absurd hc (by decide)
    · intro hc; omega
  · split
    · constructor
      · intro hc; exact absurd hc (by decide)
      · intro hc; omega
    · constructor
      · intro _; omega
      · intro _; rfl

/-- Witness evaluating the C6 validation at the default 33,67,33,33
tuple, which is accepted. -/
theorem C6_dimension_validation_witness :
    read_trackpad_dimensions 33 67 33 33 = 0 ↔
    (0 ≤ (33:Int) ∧ (33:Int) < 100 ∧ 0 ≤ (67:Int) ∧ (67:Int) < 100 ∧
     0 < (33:Int) ∧ (33:Int) ≤ 100 ∧ 0 < (33:Int) ∧ (33:Int) ≤ 100 ∧
     (33:Int) + 33 ≤ 100 ∧ (67:Int) + 33 ≤ 100) :=
  C6_dimension_validation 33 67 33 33

theorem handle_event_syn (ctx : trackscreen_context) (v : Int) :
    handle_event ctx ⟨EV_SYN, SYN_REPORT, v⟩ =
      handle_report ctx ⟨EV_SYN, SYN_REPORT, v⟩ := by
  unfold handle_event
  rw [if_pos ⟨rfl, rfl⟩]

theorem replace_positions_length (x y : Int) (l : List IEvent) :
    (replace_positions x y l).length = l.length := by
  simp [replace_positions]

theorem replace_positions_typecode (x y : Int) (l : List IEvent) :
    (replace_positions x y l).map (fun e => (e.type, e.code)) =
      l.map (fun e => (e.type, e.code)) := by
  unfold replace_positions
  rw [List.map_map]
  refine List.map_congr_left ?_
  intro e _
  simp only [Function.comp]
  split_ifs <;> rfl

theorem mt_stage_sidekey (ctx : trackscreen_context) :
    (mt_stage ctx).sidekey = ctx.sidekey := by
  unfold mt_stage; split <;> simp [emit_multitap_sidekey]

theorem mt_stage_kbd (ctx : trackscreen_context) :
    (mt_stage ctx).kbd = ctx.kbd := by
  unfold mt_stage; split <;> simp [emit_multitap_kbd]

theorem mt_stage_keycode (ctx : trackscreen_context) :
    (mt_stage ctx).keycode = ctx.keycode := by
  unfold mt_stage; split <;> simp [emit_multitap_keycode]

theorem mt_stage_fingers (ctx : trackscreen_context) :
    (mt_stage ctx).fingers = ctx.fingers := by
  unfold mt_stage; split <;> simp [emit_multitap_fingers]

theorem mt_stage_slot (ctx : trackscreen_context) :
    (mt_stage ctx).slot = ctx.slot := by
  unfold mt_stage; split <;> simp [emit_multitap_slot]

theorem check_bounds_keycode (c : trackscreen_context) :
    (check_bounds c).1.keycode = c.keycode := by
  simp only [check_bounds]
  split
  · rfl
  · rw [sidekey_update_fst]

theorem check_bounds_fingers (c : trackscreen_context) :
    (check_bounds c).1.fingers = c.fingers := by
  simp only [check_bounds]
  split
  · rfl
  · rw [sidekey_update_fst]

theorem check_bounds_slot (c : trackscreen_context) :
    (check_bounds c).1.slot = c.slot := by
  simp only [check_bounds]
  split
  · rfl
  · rw [sidekey_update_fst]

theorem side_class_cases (c : trackscreen_context) (x y : Int) :
    side_class c x y = 0 ∨ side_class c x y = 1 := by
  unfold side_class; split <;> simp

theorem check_bounds_sidekey_cases (c : trackscreen_context)
    (h1 : c.sidekey = 1) (hk : 0 < c.kbd) :
    ((check_bounds c).1.sidekey = 1 ∧ (check_bounds c).2 = []) ∨
    ((check_bounds c).1.sidekey = 0 ∧
     (check_bounds c).2 = [emit_sidekey_event c 0]) := by
  simp only [check_bounds]
  split
  · exact Or.inl ⟨h1, rfl⟩
  · rcases side_class_cases c (find_position c).1 (find_position c).2 with hs | hs
    · right
      unfold sidekey_update
      rw [if_pos (by rw [hs, h1]; decide)]
      exact ⟨by simp [hs], by simp [hk, hs]⟩
    · left
      unfold sidekey_update
      rw [if_neg (by rw [hs, h1]; simp)]
      exact ⟨by simp [h1], rfl⟩

theorem handle_report_kbd_sidekey (ctx : trackscreen_context) (ev : IEvent) :
    (handle_report ctx ev).2.kbdWrites =
      (check_bounds (mt_stage ctx)).2 ++
        (if count_fingers ctx.fingers = 0 ∧
            (check_bounds (mt_stage ctx)).1.sidekey ≠ 0 then
           (if 0 < (check_bounds (mt_stage ctx)).1.keycode then
              [emit_sidekey_event (check_bounds (mt_stage ctx)).1 0]
            else [])
         else []) ∧
    (handle_report ctx ev).1.sidekey =
      (if count_fingers ctx.fingers = 0 ∧
          (check_bounds (mt_stage ctx)).1.sidekey ≠ 0 then 0
       else (check_bounds (mt_stage ctx)).1.sidekey) := by
  constructor <;>
    (simp only [handle_report, flush_tp_events]
     split <;> rfl)

/-- C4: on a sync report whose recomputed finger count is 0 while the
sidekey is active (with the keyboard device configured), exactly one
sidekey release write is produced for that report and the stored sidekey
state becomes inactive — whether the bounds check left the sidekey
active (the forced release fires) or itself produced the release. -/
theorem C4_forced_release (ctx : trackscreen_context) (v : Int)
    (hfc : count_fingers ctx.fingers = 0) (hsk : ctx.sidekey = 1)
    (hkbd : 0 < ctx.kbd) (hkey : 0 < ctx.keycode) :
    (handle_event ctx ⟨EV_SYN, SYN_REPORT, v⟩).2.kbdWrites =
      [[⟨EV_KEY, (ctx.keycode % 65536).toNat, 0⟩, ⟨EV_SYN, SYN_REPORT, 0⟩]] ∧
    (handle_event ctx ⟨EV_SYN, SYN_REPORT, v⟩).1.sidekey = 0 := by
  rw [handle_event_syn]
  have hr := handle_report_kbd_sidekey ctx ⟨EV_SYN, SYN_REPORT, v⟩
  have hc1sk : (mt_stage ctx).sidekey = 1 := by rw [mt_stage_sidekey]; exact hsk
  have hc1kbd : 0 < (mt_stage ctx).kbd := by rw [mt_stage_kbd]; exact hkbd
  have hkey2 : (check_bounds (mt_stage ctx)).1.keycode = ctx.keycode := by
    rw [check_bounds_keycode, mt_stage_keycode]
  rcases check_bounds_sidekey_cases (mt_stage ctx) hc1sk hc1kbd with
    ⟨ha, hb⟩ | ⟨ha, hb⟩
  · constructor
    · rw [hr.1, hb, ha]
      rw [if_pos ⟨hfc, by decide⟩, if_pos (by rw [hkey2]; exact hkey)]
      simp [emit_sidekey_event, hkey2]
    · rw [hr.2, ha, if_pos ⟨hfc, by decide⟩]
  · constructor
    · rw [hr.1, hb, ha]
      rw [if_neg (by simp)]
      simp [emit_sidekey_event, mt_stage_keycode]
    · rw [hr.2, ha, if_neg (by simp)]

/-- Witness applying the C4 theorem to a state with the sidekey active,
no fingers down, and the keyboard configured with keycode 85. -/
theorem C4_forced_release_witness :
    (count_fingers c4_ctx.fingers = 0 ∧ c4_ctx.sidekey = 1 ∧
     0 < c4_ctx.kbd ∧ 0 < c4_ctx.keycode) ∧
    ((handle_event c4_ctx ⟨EV_SYN, SYN_REPORT, 0⟩).2.kbdWrites =
      [[⟨EV_KEY, (c4_ctx.keycode % 65536).toNat, 0⟩, ⟨EV_SYN, SYN_REPORT, 0⟩]] ∧
     (handle_event c4_ctx ⟨EV_SYN, SYN_REPORT, 0⟩).1.sidekey = 0) :=
  ⟨⟨by decide, by decide, by decide, by decide⟩,
   C4_forced_release c4_ctx 0 (by decide) (by decide) (by decide) (by decide)⟩

theorem sidekey_run_steady (c : trackscreen_context) (ps : List (Int × Int))
    (hc : ∀ p ∈ ps, side_class c p.1 p.2 = c.sidekey) :
    sidekey_run c ps = (c, []) := by
  induction ps with
  | nil => rfl
  | cons p ps ih =>
      have h1 : side_class c p.1 p.2 = c.sidekey := hc p (by simp)
      have hupd : sidekey_update c p.1 p.2 = (c, []) := by
        unfold sidekey_update
        rw [if_neg (by rw [h1]; simp)]
      simp [sidekey_run, hupd, ih (fun q hq => hc q (by simp [hq]))]

/-- C8: over a run of reports whose resolved positions all receive the
same boundary classification, the sidekey transition step emits at most
one key event; the whole output equals what the first report alone
produces, is empty when the classification matches the stored sidekey
state, and is the single transition write otherwise. -/
theorem C8_sidekey_single_transition (ctx : trackscreen_context)
    (ps : List (Int × Int)) (c : Nat) (hk : 0 < ctx.kbd)
    (hcls : ∀ p ∈ ps, side_class ctx p.1 p.2 = c) :
    (sidekey_run ctx ps).2 =
      (if ps = [] ∨ c = ctx.sidekey then []
       else [emit_sidekey_event ctx (c : Int)]) ∧
    (sidekey_run ctx ps).2.length ≤ 1 ∧
    (sidekey_run ctx ps).2 = (sidekey_run ctx (ps.take 1)).2 := by
  match ps with
  | [] => exact ⟨by simp [sidekey_run], by simp [sidekey_run], rfl⟩
  | p :: rest =>
      have h1 : side_class ctx p.1 p.2 = c := hcls p (by simp)
      by_cases heq : c = ctx.sidekey
      · have hsteady := sidekey_run_steady ctx (p :: rest)
          (fun q hq => by rw [hcls q hq, heq])
        have hsteady1 := sidekey_run_steady ctx [p]
          (fun q hq => by
            rw [show q = p by simpa using hq, h1, heq])
        rw [hsteady, show List.take 1 (p :: rest) = [p] from rfl, hsteady1]
        simp [heq]
      · have hupd : sidekey_update ctx p.1 p.2 =
            ({ ctx with sidekey := c }, [emit_sidekey_event ctx (c : Int)]) := by
          unfold sidekey_update
          rw [h1, if_pos heq, if_pos hk]
        have hrest : sidekey_run { ctx with sidekey := c } rest =
            ({ ctx with sidekey := c }, []) :=
          sidekey_run_steady _ _ (fun q hq => hcls q (by simp [hq]))
        refine ⟨?_, ?_, ?_⟩ <;>
          simp [sidekey_run, hupd, hrest, heq]

/-- Witness applying the C8 theorem to two reports both classified as
side touches while the sidekey starts inactive: exactly one press. -/
theorem C8_sidekey_single_transition_witness :
    (0 < test_ctx.kbd ∧
     side_class test_ctx 100 800 = 1 ∧ side_class test_ctx 20 900 = 1) ∧
    ((sidekey_run test_ctx [(100, 800), (20, 900)]).2 =
      (if ([((100:Int), (800:Int)), (20, 900)] : List (Int × Int)) = [] ∨
          1 = test_ctx.sidekey then []
       else [emit_sidekey_event test_ctx ((1 : Nat) : Int)]) ∧
     (sidekey_run test_ctx [(100, 800), (20, 900)]).2.length ≤ 1 ∧
     (sidekey_run test_ctx [(100, 800), (20, 900)]).2 =
      (sidekey_run test_ctx ([((100:Int), (800:Int)), (20, 900)].take 1)).2) :=
  ⟨⟨by decide, by decide, by decide⟩,
   C8_sidekey_single_transition test_ctx [(100, 800), (20, 900)] 1 (by decide)
     (by decide)⟩

theorem queue_tp_event_append (ctx : trackscreen_context) (t c : Nat)
    (v : Int) (h : ctx.input_event.length < 24) :
    (queue_tp_event ctx t c v).input_event = ctx.input_event ++ [⟨t, c, v⟩] := by
  unfold queue_tp_event
  rw [if_neg (by simp only [MAX_EVENTS_PER_REPORT]; omega)]

theorem handle_report_fingers (ctx : trackscreen_context) (ev : IEvent) :
    (handle_report ctx ev).1.fingers = ctx.fingers := by
  simp only [handle_report, flush_tp_events]
  split <;> simp [check_bounds_fingers, mt_stage_fingers]

theorem handle_event_slot_select (ctx : trackscreen_context) (v : Int) :
    (handle_event ctx ⟨EV_ABS, ABS_MT_SLOT, v⟩).1 =
      queue_tp_event { ctx with slot := uint_of_int32 v }
        EV_ABS ABS_MT_SLOT v := by
  unfold handle_event
  rw [if_neg (fun h => by simp [EV_ABS, EV_SYN] at h),
      if_neg (fun h => h rfl)]
  unfold abs_stage
  rw [if_pos rfl]

theorem handle_event_tracking_id (c : trackscreen_context) (w : Int)
    (h : ¬ c.slot < MAX_FINGERS) :
    (handle_event c ⟨EV_ABS, ABS_MT_TRACKING_ID, w⟩).1 =
      queue_tp_event c EV_ABS ABS_MT_TRACKING_ID w := by
  unfold handle_event
  rw [if_neg (fun hx => by simp [EV_ABS, EV_SYN] at hx),
      if_neg (fun hx => hx rfl)]
  unfold abs_stage
  rw [if_neg (fun hx => by simp [ABS_MT_SLOT, ABS_MT_TRACKING_ID] at hx),
      if_pos rfl, if_neg h]

/-- C10: the tracking-ID table is only ever written at an index below
10: one handle_event step either leaves the table unchanged or rewrites
the entry at the in-bounds slot cursor; a tracking-id event arriving
while the cursor is out of bounds leaves the table unchanged; and a
slot-select event carrying a negative value drives the unsigned cursor
out of bounds (two's complement), so a following tracking-id event skips
the table write while still being queued for forwarding unchanged. -/
theorem C10_slot_bounds :
    (∀ (ctx : trackscreen_context) (ev : IEvent),
      (handle_event ctx ev).1.fingers = ctx.fingers ∨
      (ctx.slot < 10 ∧
       (handle_event ctx ev).1.fingers = ctx.fingers.set ctx.slot ev.value)) ∧
    (∀ (ctx : trackscreen_context) (w : Int), ¬ ctx.slot < 10 →
      (handle_event ctx ⟨EV_ABS, ABS_MT_TRACKING_ID, w⟩).1.fingers =
        ctx.fingers) ∧
    (∀ (ctx : trackscreen_context) (v w : Int), v < 0 → -2147483648 ≤ v →
      ¬ ((handle_event ctx ⟨EV_ABS, ABS_MT_SLOT, v⟩).1.slot < 10) ∧
      (handle_event (handle_event ctx ⟨EV_ABS, ABS_MT_SLOT, v⟩).1
          ⟨EV_ABS, ABS_MT_TRACKING_ID, w⟩).1.fingers =
        (handle_event ctx ⟨EV_ABS, ABS_MT_SLOT, v⟩).1.fingers ∧
      ((handle_event ctx ⟨EV_ABS, ABS_MT_SLOT, v⟩).1.input_event.length < 24 →
        (handle_event (handle_event ctx ⟨EV_ABS, ABS_MT_SLOT, v⟩).1
            ⟨EV_ABS, ABS_MT_TRACKING_ID, w⟩).1.input_event =
          (handle_event ctx ⟨EV_ABS, ABS_MT_SLOT, v⟩).1.input_event ++
            [⟨EV_ABS, ABS_MT_TRACKING_ID, w⟩])) := by
  have hwrite : ∀ (ctx : trackscreen_context) (ev : IEvent),
      (handle_event ctx ev).1.fingers = ctx.fingers ∨
      (ctx.slot < 10 ∧
       (handle_event ctx ev).1.fingers = ctx.fingers.set ctx.slot ev.value) := by
    intro ctx ev
    unfold handle_event
    split
    · exact Or.inl (handle_report_fingers ctx ev)
    · split
      · exact Or.inl (by rw [queue_tp_event_fingers])
      · rw [queue_tp_event_fingers]
        unfold abs_stage
        split
        · exact Or.inl rfl
        · split
          · split
            · next h => exact Or.inr ⟨h, rfl⟩
            · exact Or.inl rfl
          · exact Or.inl rfl
  have hskip : ∀ (ctx : trackscreen_context) (w : Int), ¬ ctx.slot < 10 →
      (handle_event ctx ⟨EV_ABS, ABS_MT_TRACKING_ID, w⟩).1.fingers =
        ctx.fingers := by
    intro ctx w h
    rw [handle_event_tracking_id ctx w h, queue_tp_event_fingers]
  refine ⟨hwrite, hskip, ?_⟩
  intro ctx v w hv hv2
  have hslot : (handle_event ctx ⟨EV_ABS, ABS_MT_SLOT, v⟩).1.slot =
      uint_of_int32 v := by
    rw [handle_event_slot_select, queue_tp_event_slot]
  have hbig : ¬ (uint_of_int32 v < 10) := by
    unfold uint_of_int32
    omega
  refine ⟨by rw [hslot]; exact hbig, ?_, ?_⟩
  · exact hskip _ w (by rw [hslot]; exact hbig)
  · intro hroom
    rw [handle_event_tracking_id _ w (by rw [hslot]; exact hbig),
        queue_tp_event_append _ _ _ _ hroom]

/-- Witness applying the C10 theorem: a slot-select of -1 sends the
cursor out of bounds and the next tracking-id event leaves the table
untouched while still being queued. -/
theorem C10_slot_bounds_witness :
    ((-1 : Int) < 0 ∧ (-2147483648 : Int) ≤ -1) ∧
    (¬ ((handle_event test_ctx ⟨EV_ABS, ABS_MT_SLOT, -1⟩).1.slot < 10) ∧
     (handle_event (handle_event test_ctx ⟨EV_ABS, ABS_MT_SLOT, -1⟩).1
         ⟨EV_ABS, ABS_MT_TRACKING_ID, 5⟩).1.fingers =
       (handle_event test_ctx ⟨EV_ABS, ABS_MT_SLOT, -1⟩).1.fingers ∧
     ((handle_event test_ctx ⟨EV_ABS, ABS_MT_SLOT, -1⟩).1.input_event.length <
        24 →
       (handle_event (handle_event test_ctx ⟨EV_ABS, ABS_MT_SLOT, -1⟩).1
           ⟨EV_ABS, ABS_MT_TRACKING_ID, 5⟩).1.input_event =
         (handle_event test_ctx ⟨EV_ABS, ABS_MT_SLOT, -1⟩).1.input_event ++
           [⟨EV_ABS, ABS_MT_TRACKING_ID, 5⟩])) :=
  ⟨⟨by decide, by decide⟩, C10_slot_bounds.2.2 test_ctx (-1) 5 (by decide)
    (by decide)⟩

